import Mathlib

/-!
Verification development for the `p115client` library (`src/p115client/client.py`).

Each definition below is a shallow embedding of a function or code path of
`client.py`, translated directly from the source.  Theorems at the end of the
file settle the behavioural claims about those functions.
-/

namespace P115

/-- POSIX errno values (Linux), as used via Python's `errno` module. -/
def EIO : Nat := 5
def ENOENT : Nat := 2
def EEXIST : Nat := 17
def EISDIR : Nat := 21
def ENOTSUP : Nat := 95
def ENOSPC : Nat := 28
def EBUSY : Nat := 16
def EINVAL : Nat := 22
def ENOSYS : Nat := 38
def EFBIG : Nat := 27

/-- A decoded JSON value, the shape of response bodies handled by the client. -/
inductive JsonV where
  | jnull
  | jbool (b : Bool)
  | jint (n : Int)
  | jstr (s : String)
  | jarr (l : List JsonV)
  | jobj (l : List (String × JsonV))

/-- Python truthiness of a JSON value (`bool(v)`). -/
def JsonV.truthy : JsonV → Bool
  | .jnull => false
  | .jbool b => b
  | .jint n => n != 0
  | .jstr s => s != ""
  | .jarr l => !l.isEmpty
  | .jobj l => !l.isEmpty

/-- First-occurrence lookup in an association list, the model of Python
`dict.__getitem__` / `dict.get` (Python dicts have unique keys; raw service
bodies are modelled as association lists looked up at the first hit). -/
def getk (fields : List (String × JsonV)) (key : String) : Option JsonV :=
  match fields with
  | [] => none
  | (k, v) :: rest => if k = key then some v else getk rest key

/-- Python `str.lower()` / `str.upper()` for the ASCII header and digest
strings this client manipulates, computed characterwise (the builtin
`String.map` does not reduce in proofs). -/
def pyLower (s : String) : String :=
  String.mk (s.data.map Char.toLower)

def pyUpper (s : String) : String :=
  String.mk (s.data.map Char.toUpper)

deriving instance DecidableEq for Except

/-- A decoded response body: either not a mapping at all, or a mapping. -/
inductive Body where
  | nonMapping
  | mapping (fields : List (String × JsonV))

/-- The error kinds raised by `check_response` (`p115client.exception`). -/
inductive ErrKind where
  | login          -- LoginError
  | auth           -- AuthenticationError
  | fileExists     -- FileExistsError
  | fileNotFound   -- FileNotFoundError
  | isADirectory   -- IsADirectoryError
  | notSupported   -- NotSupportedError
  | busy           -- BusyOSError
  | operational    -- OperationalError
  | generic        -- P115OSError
deriving DecidableEq

/-- An error raised by `check_response`: kind, POSIX errno, and the offending
body (the Python exceptions carry `resp` as their second argument). -/
structure PErr where
  kind : ErrKind
  eno : Nat
  body : Body

/-- `client.py:251-312` — the `match resp["errno"]` arm of `check_response.check`.
Returns the error for a recognized code, `none` when the `match` falls through
(execution then reaches the final generic raise). -/
def errnoCase (v : JsonV) : Option (ErrKind × Nat) :=
  match v with
  | .jint n =>
    if n = 99 then some (.login, EIO)
    else if n = 911 then some (.auth, EIO)
    else if n = 20004 then some (.fileExists, EEXIST)
    else if n = 20009 then some (.fileNotFound, ENOENT)
    else if n = 50003 then some (.fileNotFound, ENOENT)
    else if n = 90008 then some (.fileNotFound, ENOENT)
    else if n = 91002 then some (.notSupported, ENOTSUP)
    else if n = 91004 then some (.notSupported, ENOTSUP)
    else if n = 91005 then some (.operational, ENOSPC)
    else if n = 231011 then some (.fileNotFound, ENOENT)
    else if n = 300104 then some (.generic, EFBIG)
    else if n = 980006 then some (.notSupported, ENOSYS)
    else if n = 990005 then some (.busy, EBUSY)
    else if n = 990009 then some (.busy, EBUSY)
    else if n = 990023 then some (.operational, ENOTSUP)
    else if n = 40100000 then some (.operational, EINVAL)
    else if n = 40101004 then some (.login, EIO)
    else if n = 40101017 then some (.auth, EIO)
    else if n = 40101032 then some (.login, EIO)
    else none
  | _ => none

/-- `client.py:313-316` — the `match resp["errNo"]` arm. -/
def errNoCase (v : JsonV) : Option (ErrKind × Nat) :=
  match v with
  | .jint n => if n = 990001 then some (.auth, EIO) else none
  | _ => none

/-- `client.py:317-320` — the `match resp["errcode"]` arm. -/
def errcodeCase (v : JsonV) : Option (ErrKind × Nat) :=
  match v with
  | .jint n => if n = 911 then some (.auth, EIO) else none
  | _ => none

/-- `client.py:321-324` — the `match resp["code"]` arm. -/
def codeCase (v : JsonV) : Option (ErrKind × Nat) :=
  match v with
  | .jint n => if n = 99 then some (.auth, EIO) else none
  | _ => none

/-- `client.py:325-332` — the `match resp["msg_code"]` arm. -/
def msgCodeCase (v : JsonV) : Option (ErrKind × Nat) :=
  match v with
  | .jint n =>
    if n = 50028 then some (.generic, EFBIG)
    else if n = 70004 then some (.isADirectory, EISDIR)
    else if n = 70005 then some (.fileNotFound, ENOENT)
    else none
  | _ => none

/-- `client.py:246-333` — the inner `check` of `check_response`: a non-mapping
body raises `P115OSError(EIO)`; a mapping with a truthy or absent `state` is
returned unchanged; otherwise the code fields are inspected by the
`if "errno" in resp ... elif "errNo" in resp ... elif ...` chain, and a body
not matched by any case reaches the final `raise P115OSError(errno.EIO, resp)`. -/
def check (body : Body) : Except PErr (List (String × JsonV)) :=
  match body with
  | .nonMapping => .error ⟨.generic, EIO, body⟩
  | .mapping fields =>
    match getk fields "state" with
    | none => .ok fields
    | some st =>
      if st.truthy then .ok fields
      else
        let res :=
          match getk fields "errno" with
          | some v => errnoCase v
          | none =>
            match getk fields "errNo" with
            | some v => errNoCase v
            | none =>
              match getk fields "errcode" with
              | some v => errcodeCase v
              | none =>
                match getk fields "code" with
                | some v => codeCase v
                | none =>
                  match getk fields "msg_code" with
                  | some v => msgCodeCase v
                  | none => none
        match res with
        | some (k, e) => .error ⟨k, e, body⟩
        | none => .error ⟨.generic, EIO, body⟩

/-- The validation table of spec §4.3: `(field, code, error kind, errno)`. -/
def specTable : List (String × Int × ErrKind × Nat) :=
  [ ("errno", 99, .login, EIO)
  , ("errno", 911, .auth, EIO)
  , ("errno", 20004, .fileExists, EEXIST)
  , ("errno", 20009, .fileNotFound, ENOENT)
  , ("errno", 50003, .fileNotFound, ENOENT)
  , ("errno", 90008, .fileNotFound, ENOENT)
  , ("errno", 91002, .notSupported, ENOTSUP)
  , ("errno", 91004, .notSupported, ENOTSUP)
  , ("errno", 91005, .operational, ENOSPC)
  , ("errno", 231011, .fileNotFound, ENOENT)
  , ("errno", 300104, .generic, EFBIG)
  , ("errno", 980006, .notSupported, ENOSYS)
  , ("errno", 990005, .busy, EBUSY)
  , ("errno", 990009, .busy, EBUSY)
  , ("errno", 990023, .operational, ENOTSUP)
  , ("errno", 40100000, .operational, EINVAL)
  , ("errno", 40101004, .login, EIO)
  , ("errno", 40101017, .auth, EIO)
  , ("errno", 40101032, .login, EIO)
  , ("errNo", 990001, .auth, EIO)
  , ("errcode", 911, .auth, EIO)
  , ("code", 99, .auth, EIO)
  , ("msg_code", 50028, .generic, EFBIG)
  , ("msg_code", 70004, .isADirectory, EISDIR)
  , ("msg_code", 70005, .fileNotFound, ENOENT) ]

/-- The first code field of the priority chain `errno`, `errNo`, `errcode`,
`code`, `msg_code` that is present in a body, with its value. -/
def firstCodeField (fields : List (String × JsonV)) : Option (String × JsonV) :=
  match getk fields "errno" with
  | some v => some ("errno", v)
  | none =>
    match getk fields "errNo" with
    | some v => some ("errNo", v)
    | none =>
      match getk fields "errcode" with
      | some v => some ("errcode", v)
      | none =>
        match getk fields "code" with
        | some v => some ("code", v)
        | none =>
          match getk fields "msg_code" with
          | some v => some ("msg_code", v)
          | none => none

/-- Table lookup, the spec-table reading of §4.3: the error documented for a
given field carrying a given value. -/
def specTableLookup (f : String) (v : JsonV) : Option (ErrKind × Nat) :=
  match v with
  | .jint n =>
    match (specTable.filter (fun r => r.1 = f && n = r.2.1)).head? with
    | some r => some r.2.2
    | none => none
  | _ => none

end P115

namespace P115

/-- Python exceptions raised by the embedded code paths. -/
inductive PyExc where
  | keyError (k : String)
  | valueError (msg : String)
  | typeError (msg : String)
  | attributeError (msg : String)
deriving DecidableEq

/-- Whether `key in info` holds for a mapping. -/
def hask (info : List (String × JsonV)) (key : String) : Bool :=
  (getk info key).isSome

/-- `info[key]` — raises `KeyError` when absent. -/
def getItem (info : List (String × JsonV)) (key : String) : Except PyExc JsonV :=
  match getk info key with
  | some v => .ok v
  | none => .error (.keyError key)

/-- Value of a nonempty all-digit character list. -/
def decVal (cs : List Char) : Nat :=
  cs.foldl (fun a c => a * 10 + (c.toNat - 48)) 0

/-- Python `str.isdecimal()` restricted to ASCII digits (the raw records carry
ASCII decimal strings). -/
def pyIsDecimal (s : String) : Bool :=
  !s.data.isEmpty && s.data.all Char.isDigit

/-- Python `int(v)`: ints pass through, bools become 0/1, strings parse as an
optionally signed decimal numeral (`ValueError` otherwise), anything else is a
`TypeError`. -/
def pyInt (v : JsonV) : Except PyExc Int :=
  match v with
  | .jint n => .ok n
  | .jbool b => .ok (if b then 1 else 0)
  | .jstr s =>
    match s.data with
    | '-' :: rest =>
      if !rest.isEmpty && rest.all Char.isDigit then .ok (-(decVal rest : Int))
      else .error (.valueError s)
    | cs =>
      if !cs.isEmpty && cs.all Char.isDigit then .ok (decVal cs : Int)
      else .error (.valueError s)
  | _ => .error (.typeError "int() argument")

/-- `v or 0` as used in `int(info.get(k) or 0)`. -/
def orZero (v : Option JsonV) : JsonV :=
  match v with
  | some w => if w.truthy then w else .jint 0
  | none => .jint 0

/-- Dictionary assignment `attr[key] = v` (replace first occurrence or append;
all keys written by `normalize_attr` are distinct, so this is plain append in
practice). -/
def setk (attr : List (String × JsonV)) (key : String) (v : JsonV) :
    List (String × JsonV) :=
  match attr with
  | [] => [(key, v)]
  | (k, w) :: rest => if k = key then (k, v) :: rest else (k, w) :: setk rest key v

/-- `client.py:375-382` — one `if key in info: attr[a] = attr[b] = int(info[key])`
timestamp clause. -/
def setTimeKeys (info attr : List (String × JsonV)) (key : String)
    (names : List String) : Except PyExc (List (String × JsonV)) :=
  match getk info key with
  | none => .ok attr
  | some v => do
    let n ← pyInt v
    pure (names.foldl (fun a nm => setk a nm (.jint n)) attr)

/-- `client.py:385-398` — the single-character boolean flag keys. -/
def flagPairs : List (String × String) :=
  [ ("fdes", "has_desc"), ("hdf", "hidden"), ("issct", "is_shortcut")
  , ("ispl", "show_play_long"), ("m", "star"), ("c", "violated"), ("sh", "is_share") ]

/-- `client.py:399-415` — the keys copied through verbatim. -/
def copyPairs : List (String × String) :=
  [ ("dp", "dir_path"), ("style", "style"), ("ns", "name_show")
  , ("cc", "category_cover"), ("sta", "status"), ("class", "class")
  , ("u", "thumb"), ("vdi", "video_type"), ("play_long", "play_long")
  , ("audio_play_long", "audio_play_long"), ("current_time", "current_time")
  , ("last_time", "last_time"), ("played_end", "played_end") ]

/-- `client.py:342-418` — `normalize_attr`, translated clause by clause from the
source.  The "basic" record shape: directory iff `fid` is absent; then
`id`/`parent_id` from `cid`/`pid` (directory) or `fid`/`cid` (file); `n` is the
name, `s` the size, `sha` the sha1, `fl` the labels (a `KeyError` when `n` or
`fl` is missing, as in the source); then timestamps, boolean flags coerced by
equality to 1, verbatim copies, and optionally the raw record under `raw`. -/
def normalize_attr (info : List (String × JsonV)) (keepRaw : Bool) :
    Except PyExc (List (String × JsonV)) := do
  let isDir := !(hask info "fid")
  let attr : List (String × JsonV) := []
  let attr := setk attr "is_dir" (.jbool isDir)
  let attr := setk attr "is_directory" (.jbool isDir)
  let attr ←
    if isDir then do
      let c ← getItem info "cid"
      let ci ← pyInt c
      let p ← getItem info "pid"
      let pv ← pyInt p
      pure (setk (setk attr "id" (.jint ci)) "parent_id" (.jint pv))
    else do
      let f ← getItem info "fid"
      let fi ← pyInt f
      let c ← getItem info "cid"
      let ci ← pyInt c
      pure (setk (setk attr "id" (.jint fi)) "parent_id" (.jint ci))
  let attr :=
    match getk info "pc" with
    | some v => setk (setk attr "pickcode" v) "pick_code" v
    | none => attr
  let nv ← getItem info "n"
  let attr := setk attr "name" nv
  let sv ← pyInt (orZero (getk info "s"))
  let attr := setk attr "size" (.jint sv)
  let attr := setk attr "sha1" ((getk info "sha").getD .jnull)
  let fl ← getItem info "fl"
  let attr := setk attr "labels" fl
  let attr ←
    if hask info "score" then do
      let n ← pyInt (orZero (getk info "score"))
      pure (setk attr "score" (.jint n))
    else pure attr
  let attr := setk attr "ico"
    ((getk info "ico").getD (.jstr (if isDir then "folder" else "")))
  let attr ← setTimeKeys info attr "te" ["mtime", "user_utime"]
  let attr ← setTimeKeys info attr "tp" ["ctime", "user_ptime"]
  let attr ← setTimeKeys info attr "to" ["atime", "user_otime"]
  let attr ← setTimeKeys info attr "tu" ["utime"]
  let attr ←
    match getk info "t" with
    | none => pure attr
    | some v =>
      if v.truthy then
        match v with
        | .jstr s =>
          if pyIsDecimal s then do
            let n ← pyInt (.jstr s)
            pure (setk attr "time" (.jint n))
          else pure attr
        | _ => .error (.attributeError "isdecimal")
      else pure attr
  let attr ← flagPairs.foldlM (fun a kv =>
    match getk info kv.1 with
    | none => pure a
    | some v => do
      let n ← pyInt (if v.truthy then v else .jint 0)
      pure (setk a kv.2 (.jbool (n == 1)))) attr
  let attr := copyPairs.foldl (fun a kv =>
    match getk info kv.1 with
    | some v => setk a kv.2 v
    | none => a) attr
  let attr := if keepRaw then setk attr "raw" (.jobj info) else attr
  return attr

end P115

namespace P115

/-- Does the tail of the regex `115.com` (with `.` matching any character)
match a prefix of `cs`? -/
def starts115 : List Char → Bool
  | '1' :: '1' :: '5' :: _ :: 'c' :: 'o' :: 'm' :: _ => true
  | _ => false

/-- Consume one starred block `[^.]+\.` of `CRE_115_DOMAIN_match`: the
characters up to the next dot (at least one, none of them a dot), then the dot
itself; returns the remainder, or `none` when no such block starts here. -/
def skipToDot : List Char → Option (List Char)
  | [] => none
  | d :: ds => if d = '.' then some ds else skipToDot ds

def blockStep : List Char → Option (List Char)
  | [] => none
  | c :: rest => if c = '.' then none else skipToDot rest

/-- `client.py:71` — the part of `CRE_115_DOMAIN_match` after the scheme:
`(?:[^.]+\.)*115.com` matched at the start of `cs`.  Each starred block
`[^.]+\.` necessarily extends exactly to the first dot of the remaining input
(its characters may not contain a dot and it must end with one), so the match
exists iff repeatedly stripping `<nonempty dot-free run>.` can reach a point
where `115<any>com` is a prefix.  The fuel is the input length, enough for
every block (each block removes at least two characters). -/
def domTailFuel : Nat → List Char → Bool
  | 0, cs => starts115 cs
  | fuel + 1, cs =>
    starts115 cs ||
      match blockStep cs with
      | some rest => domTailFuel fuel rest
      | none => false

def domTail (cs : List Char) : Bool :=
  domTailFuel cs.length cs

/-- `client.py:71` — `CRE_115_DOMAIN_match(url) is not None`: the regex
`https?://(?:[^.]+\.)*115.com` matched at the start of the URL. -/
def matches115 (url : String) : Bool :=
  match url.data with
  | 'h' :: 't' :: 't' :: 'p' :: 's' :: ':' :: '/' :: '/' :: rest => domTail rest
  | 'h' :: 't' :: 't' :: 'p' :: ':' :: '/' :: '/' :: rest => domTail rest
  | _ => false

/-- Whether a header mapping contains a key whose lowercasing is `cookie`
(`any(k.lower() == "cookie" for k in headers)`). -/
def hasCookieKey (hs : List (String × String)) : Bool :=
  hs.any (fun kv => pyLower kv.1 = "cookie")

/-- Python `{**a, **b}`: keys of `a` not overridden, then overrides/additions
from `b` (first-occurrence lookup order is preserved well enough for the
cookie-key test, which only inspects the key set). -/
def mergeHeaders (a b : List (String × String)) : List (String × String) :=
  a.filter (fun kv => !(b.any (fun kv2 => kv2.1 = kv.1))) ++ b

/-- The default `self.headers` of the client (`client.py:713-718`); it contains
no cookie header. -/
def defaultHeaders : List (String × String) :=
  [ ("Accept", "application/json, text/plain, */*")
  , ("Accept-Encoding", "gzip, deflate")
  , ("Connection", "keep-alive")
  , ("User-Agent", "Mozilla/5.0 AppleWebKit/600 Safari/600 Chrome/124.0.0.0 115disk/99.99.99.99 115Browser/99.99.99.99") ]

/-- `client.py:1368-1387` — the cookie-header policy of `P115Client.request`:
`need_cookie_header = CRE_115_DOMAIN_match(url) is None`, strengthened to
`request is not None` when the URL is a 115 domain; caller headers are merged
over `self.headers` and the `Cookie` header is added from `cookies_str` when
needed and not already present.  The result is the final
`request_kwargs["headers"]`: `none` when the dispatcher leaves headers unset. -/
def dispatchHeaders (url : String) (customRequest : Bool)
    (callerHeaders : Option (List (String × String)))
    (selfHeaders : List (String × String)) (cookiesStr : String) :
    Option (List (String × String)) :=
  let needCookieHeader :=
    if matches115 url then customRequest else true
  match callerHeaders with
  | some hs =>
    let merged := mergeHeaders selfHeaders hs
    if needCookieHeader && !hasCookieKey merged then
      some (merged ++ [("Cookie", cookiesStr)])
    else
      some merged
  | none =>
    if needCookieHeader then some (selfHeaders ++ [("Cookie", cookiesStr)])
    else none

/-- Whether the dispatcher forced a `Cookie` header the caller did not set. -/
def cookieForced (url : String) (customRequest : Bool)
    (callerHeaders : Option (List (String × String)))
    (selfHeaders : List (String × String)) : Bool :=
  let needCookieHeader :=
    if matches115 url then customRequest else true
  match callerHeaders with
  | some hs => needCookieHeader && !hasCookieKey (mergeHeaders selfHeaders hs)
  | none => needCookieHeader

end P115

namespace P115

/-- An observable step of the QR-login flow of `login_with_qrcode`. -/
inductive QrEvent where
  | pollStatus (s : Option Int)
  | scanResult (app : String)
deriving DecidableEq

/-- Outcome of the flow: the device-bound exchange response, the bare token, or
a raised `LoginError` message. -/
inductive QrOutcome where
  | exchanged (app : String)
  | bareToken
  | loginError (msg : String)
  | outOfScript
deriving DecidableEq

/-- `client.py:1062-1093` — the polling loop and terminal handling of
`login_with_qrcode`, driven by a script of `resp["data"].get("status")` values
(one per successful `login_qrcode_scan_status` call).  Statuses 0 and 1 loop,
2 breaks out and only then performs `login_qrcode_scan_result` when an app was
given; -1, -2 and any other value raise `LoginError(EIO, ...)` with distinct
messages.  `outOfScript` marks a script too short to reach a terminal state
(the real loop would keep polling). -/
def qrPollLoop (app : Option String) (statuses : List (Option Int)) :
    List QrEvent × QrOutcome :=
  match statuses with
  | [] => ([], .outOfScript)
  | s :: rest =>
    let ev := QrEvent.pollStatus s
    if s = some 0 then
      let r := qrPollLoop app rest
      (ev :: r.1, r.2)
    else if s = some 1 then
      let r := qrPollLoop app rest
      (ev :: r.1, r.2)
    else if s = some 2 then
      match app with
      | some a => ([ev, .scanResult a], .exchanged a)
      | none => ([ev], .bareToken)
    else if s = some (-1) then ([ev], .loginError "[status=-1] qrcode: expired")
    else if s = some (-2) then ([ev], .loginError "[status=-2] qrcode: canceled")
    else ([ev], .loginError "qrcode: aborted")

/-- An observable request of `read_bytes`: the one-byte length probe
(`Range: bytes=-1`, parsed for total length) or the data fetch with the given
range string. -/
inductive RbEvent where
  | probe
  | fetch (range : String)
deriving DecidableEq

/-- `client.py:10816-10837` — `get_bytes_range(start, stop)` of `read_bytes`,
with `length` the total length learned from the probe when one is issued.
Returns whether the probe was issued and the resolved range (`none` models the
Python `return None` for an empty/inverted range). -/
def getBytesRange (start : Int) (stop : Option Int) (length : Int) :
    Bool × Option String :=
  let negative :=
    start < 0 || (match stop with | some s => s ≠ 0 && s < 0 | none => false)
  if negative then
    let start1 := if start < 0 then start + length else start
    let start2 := if start1 < 0 then 0 else start1
    match stop with
    | none => (true, some (toString start2 ++ "-"))
    | some s =>
      let s1 := if s < 0 then s + length else s
      if start2 ≥ s1 then (true, none)
      else (true, some (toString start2 ++ "-" ++ toString (s1 - 1)))
  else
    match stop with
    | none => (false, some (toString start ++ "-"))
    | some s =>
      if start ≥ s then (false, none)
      else (false, some (toString start ++ "-" ++ toString (s - 1)))

/-- `client.py:10815-10848` — `read_bytes`: resolve the range (issuing the probe
when `start` or a truthy `stop` is negative), short-circuit to `b""` when the
resolved range is falsy, otherwise issue exactly one `read_bytes_range` fetch.
Returns the request trace and the fetched range (`none` = returned `b""`). -/
def readBytesModel (start : Int) (stop : Option Int) (length : Int) :
    List RbEvent × Option String :=
  let (probed, range) := getBytesRange start stop length
  let pre : List RbEvent := if probed then [.probe] else []
  match range with
  | none => (pre, none)
  | some r => (pre ++ [.fetch r], some r)

end P115

namespace P115

/-- A negotiation response of `_upload_file_init` (`upload_init` body), reduced
to the fields `upload_file_init` reads. -/
structure NegResp where
  status : Int
  statuscode : Int
  sign_key : String
  sign_check : String
  pickcode : String
deriving DecidableEq

/-- An observable action of `upload_file_init`: a negotiation network call
(with the payload fields it carries) or an invocation of the caller-supplied
`read_range_bytes_or_hash` capability on a range string. -/
inductive UpEvent where
  | negotiate (filename : String) (filesize : Int)
      (filesha1 target sign_key sign_val : String)
  | rangeRead (range : String)
deriving DecidableEq

/-- The result a `read_range_bytes_or_hash` capability may produce: a
pre-computed sha1 hex digest string, or raw bytes (to be hashed). -/
inductive RangeAnswer where
  | digest (s : String)
  | bytes (bs : List Nat)

/-- The final response `upload_file_init` returns: the last negotiation
response with `state` forced to `True` and a `data` block echoing the submitted
`target`, filename, size, sha1, parent id and the response's pickcode
(`client.py:9271-9279`). -/
structure UpFinal where
  resp : NegResp
  target : String
  file_name : String
  file_size : Int
  sha1 : String
  cid : Int
  pickcode : String
deriving DecidableEq

/-- `client.py:9203-9281` — `upload_file_init`, driven by `respond`, the
oracle giving the service's reply to the i-th negotiation call, and
parameterised by `sha1hex`, the sha1-hex-digest function applied to raw bytes
(`sha1(data).hexdigest()`).  The entry check of line 9232 raises `ValueError`
before any network call when `filesize >= 1 << 20` and no capability was
supplied; a `(7, 701)` first reply triggers exactly one capability call on the
reply's `sign_check` and one retried negotiation carrying `sign_key` and the
uppercased digest as `sign_val`.  Returns the action trace and the outcome. -/
def uploadFileInit (sha1hex : List Nat → String)
    (filename : String) (filesize : Int) (filesha1 : String)
    (reader : Option (String → RangeAnswer)) (pid : Int)
    (respond : Nat → NegResp) :
    List UpEvent × Except PyExc UpFinal :=
  if filesize ≥ (1 <<< 20 : Int) && reader.isNone then
    ([], .error (.valueError
      "filesize >= 1 MB, thus need pass the read_range_bytes_or_hash argument"))
  else
    let sha1up := pyUpper filesha1
    let target := "U_1_" ++ toString pid
    let resp0 := respond 0
    let ev0 := UpEvent.negotiate filename filesize sha1up target "" ""
    if resp0.status = 7 && resp0.statuscode = 701 then
      match reader with
      | none =>
        ([ev0], .error (.valueError
          "filesize >= 1 MB, thus need pass the read_range_bytes_or_hash argument"))
      | some rd =>
        let signKey := resp0.sign_key
        let signCheck := resp0.sign_check
        let signVal :=
          match rd signCheck with
          | .digest s => pyUpper s
          | .bytes bs => pyUpper (sha1hex bs)
        let resp1 := respond 1
        ([ev0, .rangeRead signCheck,
          .negotiate filename filesize sha1up target signKey signVal],
         .ok ⟨resp1, target, filename, filesize, sha1up, pid, resp1.pickcode⟩)
    else
      ([ev0], .ok ⟨resp0, target, filename, filesize, sha1up, pid, resp0.pickcode⟩)

/-- `client.py:10760-10767` — the blocking branch of `hashes`: open the content
at `start` (the opened file reports the total `length`; `content` is the byte
stream from `start` on), then fold every digest over the whole stream
(`stop=None`) or over `max(0, stop-start)` bytes, a negative `stop` first
resolved against `file.length`.  Digests are abstracted as fold functions over
the bytes actually read. -/
def hashesSync {α : Type} (length : Int) (content : List Nat)
    (digests : List (List Nat → α)) (start : Int) (stop : Option Int) :
    Int × List α :=
  match stop with
  | none => ((content.length : Int), digests.map (fun d => d content))
  | some s =>
    let s1 := if s < 0 then s + length else s
    let cnt := max 0 (s1 - start)
    let taken := content.take cnt.toNat
    ((taken.length : Int), digests.map (fun d => d taken))

/-- `client.py:10749-10759` — the non-blocking branch of `hashes`.  With
`stop=None` it mirrors the blocking branch; with a non-None `stop` the source
line 10758 reads `file_mdigest_async(file *digests, stop=...)` — a missing
comma — so Python evaluates `file * digests` and raises `TypeError` before any
hashing. -/
def hashesAsync {α : Type} (length : Int) (content : List Nat)
    (digests : List (List Nat → α)) (_start : Int) (stop : Option Int) :
    Except PyExc (Int × List α) :=
  match stop with
  | none => .ok ((content.length : Int), digests.map (fun d => d content))
  | some s =>
    let _ := if s < 0 then s + length else s
    .error (.typeError
      "unsupported operand type(s) for *: HTTPFileReader and tuple")

end P115

namespace P115

/-- A cookie in the jar, keyed as `http.cookiejar` keys cookies. -/
structure Cky where
  name : String
  value : String
  domain : String
  path : String
deriving DecidableEq

/-- `CookieJar.set_cookie`: replace the cookie with the same
(domain, path, name) key, else insert. -/
def jarSet (jar : List Cky) (c : Cky) : List Cky :=
  if jar.any (fun x => x.domain = c.domain && x.path = c.path && x.name = c.name)
  then jar.map (fun x =>
    if x.domain = c.domain && x.path = c.path && x.name = c.name then c else x)
  else jar ++ [c]

/-- `client.py:675-678` — remove the first cookie with the given name
(`for cookie in cookiejar: if cookie.name == key: clear(...); break`). -/
def jarRemoveFirstNamed (jar : List Cky) (key : String) : List Cky :=
  match jar with
  | [] => []
  | c :: rest =>
    if c.name = key then rest else c :: jarRemoveFirstNamed rest key

/-- ASCII whitespace as stripped by Python `str.strip()`. -/
def isPySpace (c : Char) : Bool :=
  c = ' ' || c = '\t' || c = '\n' || c = '\r' || c = '\x0b' || c = '\x0c'

/-- Python `str.strip()` (whitespace trim) followed by `.rstrip(";")`. -/
def stripAndRstripSemi (s : String) : String :=
  let stripped := (s.data.dropWhile isPySpace).reverse.dropWhile isPySpace
  String.mk (stripped.dropWhile (· = ';')).reverse

/-- Split a cookie-pair fragment at its first `=`. -/
def splitFirstEq (cs : List Char) : Option (List Char × List Char) :=
  match cs.findIdx? (· = '=') with
  | some k => some (cs.take k, cs.drop (k + 1))
  | none => none

/-- Modelled from the spec: `cookies_str_to_dict` of the third-party
`cookietools` boundary (spec §6: "cookie-string parsing"), which turns
`"UID=...; CID=...; SEID=..."` into name/value pairs — fragments split on
`;`, trimmed, and cut at their first `=`; fragments without `=` or with an
empty name contribute nothing. -/
def cookies_str_to_dict (s : String) : List (String × String) :=
  (s.splitOn ";").filterMap (fun part =>
    match splitFirstEq ((part.data.dropWhile isPySpace).reverse.dropWhile
        isPySpace).reverse with
    | some (nm, vl) =>
      if nm.isEmpty then none else some (String.mk nm, String.mk vl)
    | none => none)

/-- The argument shapes accepted by the `cookies` property setter. -/
inductive CookiesArg where
  | pynone
  | pystr (s : String)
  | pymap (m : List (String × Option String))
  | pyiter (l : List Cky)

/-- Apply a name/value mapping: a truthy value sets a cookie scoped to
`.115.com`, a falsy value removes the first cookie of that name
(`client.py:668-678`). -/
def applyCookieMap (jar : List Cky) (m : List (String × Option String)) :
    List Cky :=
  m.foldl (fun j kv =>
    match kv.2 with
    | some v =>
      if v ≠ "" then jarSet j ⟨kv.1, v, ".115.com", "/"⟩
      else jarRemoveFirstNamed j kv.1
    | none => jarRemoveFirstNamed j kv.1) jar

/-- `client.py:643-691` — the jar mutation performed by the `cookies` setter
(cache invalidation and cookie-file persistence are outside the jar state):
`None` clears the jar; a string is stripped, trailing `;` removed, and parsed —
when the string or the parsed dict is empty the setter returns with the jar
untouched; an empty mapping likewise returns untouched; a non-empty mapping is
applied pairwise; any other iterable inserts its elements as raw cookies. -/
def setCookies (jar : List Cky) (arg : CookiesArg) : List Cky :=
  match arg with
  | .pynone => []
  | .pystr s =>
    let s1 := stripAndRstripSemi s
    if s1 = "" then jar
    else
      let d := cookies_str_to_dict s1
      if d.isEmpty then jar
      else applyCookieMap jar (d.map (fun kv => (kv.1, some kv.2)))
  | .pymap m =>
    if m.isEmpty then jar else applyCookieMap jar m
  | .pyiter l => l.foldl jarSet jar

/-- `httpx.Cookies.get(name)`: value of the first cookie with that name. -/
def cookiesGet (jar : List Cky) (name : String) : Option String :=
  match jar with
  | [] => none
  | c :: rest => if c.name = name then some c.value else cookiesGet rest name

/-- Python `str.split(sep)` for a single-character separator: at least one
segment, empty segments preserved. -/
def pySplitChar (sep : Char) : List Char → List (List Char)
  | [] => [[]]
  | c :: rest =>
    match pySplitChar sep rest with
    | [] => [[]]
    | g :: gs => if c = sep then [] :: g :: gs else (c :: g) :: gs

/-- `client.py:721-727` — `P115Client.user_id`: the integer before the first
underscore of the `UID` cookie, or 0 when the cookie is absent or empty. -/
def user_id (jar : List Cky) : Except PyExc Int :=
  match cookiesGet jar "UID" with
  | some s =>
    if s ≠ "" then
      match pySplitChar '_' s.data with
      | seg :: _ => pyInt (.jstr (String.mk seg))
      | [] => .error (.valueError "unreachable")
    else .ok 0
  | none => .ok 0

/-- `client.py:7003-7011` — `P115Client.login_ssoent`: the segment between the
first and second underscores of the `UID` cookie (`split("_")[1]`, an
`IndexError` when the value has no underscore), or `None` when the cookie is
absent or empty. -/
def login_ssoent (jar : List Cky) : Except PyExc (Option String) :=
  match cookiesGet jar "UID" with
  | some s =>
    if s ≠ "" then
      match (pySplitChar '_' s.data).get? 1 with
      | some seg => .ok (some (String.mk seg))
      | none => .error (.keyError "IndexError: list index out of range")
    else .ok none
  | none => .ok none

end P115

namespace P115

/-- Whether an embedded Python computation returned normally. -/
def exOk? : Except PyExc (List (String × JsonV)) → Bool
  | .ok _ => true
  | .error _ => false

/-- Field access on the result of a successful embedded computation. -/
def attrField (r : Except PyExc (List (String × JsonV))) (key : String) :
    Option JsonV :=
  match r with
  | .ok attrs => getk attrs key
  | .error _ => none

end P115

namespace P115

theorem errnoCase_eq_table (v : JsonV) :
    errnoCase v = specTableLookup "errno" v := by
  rcases v with _ | b | n | s | l | o
  · rfl
  · rfl
  case jint =>
    by_cases h1 : n = 99
    · subst h1; rfl
    by_cases h2 : n = 911
    · subst h2; rfl
    by_cases h3 : n = 20004
    · subst h3; rfl
    by_cases h4 : n = 20009
    · subst h4; rfl
    by_cases h5 : n = 50003
    · subst h5; rfl
    by_cases h6 : n = 90008
    · subst h6; rfl
    by_cases h7 : n = 91002
    · subst h7; rfl
    by_cases h8 : n = 91004
    · subst h8; rfl
    by_cases h9 : n = 91005
    · subst h9; rfl
    by_cases h10 : n = 231011
    · subst h10; rfl
    by_cases h11 : n = 300104
    · subst h11; rfl
    by_cases h12 : n = 980006
    · subst h12; rfl
    by_cases h13 : n = 990005
    · subst h13; rfl
    by_cases h14 : n = 990009
    · subst h14; rfl
    by_cases h15 : n = 990023
    · subst h15; rfl
    by_cases h16 : n = 40100000
    · subst h16; rfl
    by_cases h17 : n = 40101004
    · subst h17; rfl
    by_cases h18 : n = 40101017
    · subst h18; rfl
    by_cases h19 : n = 40101032
    · subst h19; rfl
    simp [errnoCase, specTableLookup, specTable, h1, h2, h3, h4, h5, h6, h7, h8, h9, h10, h11, h12, h13, h14, h15, h16, h17, h18, h19]
  · rfl
  · rfl
  · rfl

theorem errNoCase_eq_table (v : JsonV) :
    errNoCase v = specTableLookup "errNo" v := by
  rcases v with _ | b | n | s | l | o
  · rfl
  · rfl
  case jint =>
    by_cases h1 : n = 990001
    · subst h1; rfl
    simp [errNoCase, specTableLookup, specTable, h1]
  · rfl
  · rfl
  · rfl

theorem errcodeCase_eq_table (v : JsonV) :
    errcodeCase v = specTableLookup "errcode" v := by
  rcases v with _ | b | n | s | l | o
  · rfl
  · rfl
  case jint =>
    by_cases h1 : n = 911
    · subst h1; rfl
    simp [errcodeCase, specTableLookup, specTable, h1]
  · rfl
  · rfl
  · rfl

theorem codeCase_eq_table (v : JsonV) :
    codeCase v = specTableLookup "code" v := by
  rcases v with _ | b | n | s | l | o
  · rfl
  · rfl
  case jint =>
    by_cases h1 : n = 99
    · subst h1; rfl
    simp [codeCase, specTableLookup, specTable, h1]
  · rfl
  · rfl
  · rfl

theorem msgCodeCase_eq_table (v : JsonV) :
    msgCodeCase v = specTableLookup "msg_code" v := by
  rcases v with _ | b | n | s | l | o
  · rfl
  · rfl
  case jint =>
    by_cases h1 : n = 50028
    · subst h1; rfl
    by_cases h2 : n = 70004
    · subst h2; rfl
    by_cases h3 : n = 70005
    · subst h3; rfl
    simp [msgCodeCase, specTableLookup, specTable, h1, h2, h3]
  · rfl
  · rfl
  · rfl

end P115

namespace P115

/-- C1: for every decoded response body passed to `check_response`: a
non-mapping body raises the generic service error with errno EIO; a mapping
whose `state` field is truthy or absent is returned unchanged; a mapping with a
falsy `state` and a recognized `(field, code)` pair — the field looked up in
the priority `errno`, `errNo`, `errcode`, `code`, `msg_code` — raises exactly
the error kind and POSIX errno documented in the table of §4.3; every other
falsy-`state` mapping raises the generic service error with errno EIO. -/
theorem C1_check_response_validation :
    (check .nonMapping = .error ⟨.generic, EIO, .nonMapping⟩)
    ∧ (∀ fields, (∀ st, getk fields "state" = some st → st.truthy = true) →
        check (.mapping fields) = .ok fields)
    ∧ (∀ f c k e, (f, c, k, e) ∈ specTable → ∀ st, st.truthy = false →
        check (.mapping [("state", st), (f, .jint c)]) =
          .error ⟨k, e, .mapping [("state", st), (f, .jint c)]⟩)
    ∧ (∀ fields st, getk fields "state" = some st → st.truthy = false →
        (∀ f v, firstCodeField fields = some (f, v) → specTableLookup f v = none) →
        check (.mapping fields) = .error ⟨.generic, EIO, .mapping fields⟩) := by
  refine ⟨rfl, ?_, ?_, ?_⟩
  · intro fields h
    cases hst : getk fields "state" with
    | none => simp [check, hst]
    | some st => simp [check, hst, h st hst]
  · intro f c k e hmem st hst
    fin_cases hmem <;>
      simp [check, getk, hst, errnoCase, errNoCase, errcodeCase, codeCase,
        msgCodeCase]
  · intro fields st hstate hfalse hnone
    cases h1 : getk fields "errno" with
    | some v =>
      have hv := hnone "errno" v (by simp [firstCodeField, h1])
      simp [check, hstate, hfalse, h1, errnoCase_eq_table, hv]
    | none =>
      cases h2 : getk fields "errNo" with
      | some v =>
        have hv := hnone "errNo" v (by simp [firstCodeField, h1, h2])
        simp [check, hstate, hfalse, h1, h2, errNoCase_eq_table, hv]
      | none =>
        cases h3 : getk fields "errcode" with
        | some v =>
          have hv := hnone "errcode" v (by simp [firstCodeField, h1, h2, h3])
          simp [check, hstate, hfalse, h1, h2, h3, errcodeCase_eq_table, hv]
        | none =>
          cases h4 : getk fields "code" with
          | some v =>
            have hv := hnone "code" v (by simp [firstCodeField, h1, h2, h3, h4])
            simp [check, hstate, hfalse, h1, h2, h3, h4, codeCase_eq_table, hv]
          | none =>
            cases h5 : getk fields "msg_code" with
            | some v =>
              have hv := hnone "msg_code" v
                (by simp [firstCodeField, h1, h2, h3, h4, h5])
              simp [check, hstate, hfalse, h1, h2, h3, h4, h5,
                msgCodeCase_eq_table, hv]
            | none =>
              simp [check, hstate, hfalse, h1, h2, h3, h4, h5]

/-- Witness for C1: the row (`errno`, 20004) of the table, fed as a synthetic
falsy-`state` body, raises FileExists with EEXIST. -/
theorem C1_check_response_validation_witness :
    (("errno", (20004 : Int), ErrKind.fileExists, EEXIST) ∈ specTable
      ∧ (JsonV.jbool false).truthy = false)
    ∧ check (.mapping [("state", .jbool false), ("errno", .jint 20004)]) =
        .error ⟨.fileExists, EEXIST,
          .mapping [("state", .jbool false), ("errno", .jint 20004)]⟩ :=
  ⟨⟨by decide, rfl⟩,
   C1_check_response_validation.2.2.1 "errno" 20004 .fileExists EEXIST
     (by decide) (.jbool false) rfl⟩

end P115

namespace P115

theorem hasCookieKey_mergeDefault (hs : List (String × String)) :
    hasCookieKey (mergeHeaders defaultHeaders hs) = hasCookieKey hs := by
  have hall : ∀ kv ∈ defaultHeaders, (pyLower kv.1 = "cookie") = False := by
    intro kv hkv
    fin_cases hkv <;> simp only [eq_iff_iff, iff_false] <;> decide
  simp only [mergeHeaders, hasCookieKey, List.any_append, Bool.or_eq_true]
  rw [List.any_eq_false.mpr]
  · simp
  · intro kv hkv
    have := hall kv (List.mem_of_mem_filter hkv)
    simp [this]

/-- C2 counterexample: for the non-115 URL `https://example.org/data` with no
custom transport and no caller headers, the claim says no Cookie header is
forced, but the dispatcher injects the cookie string into the headers. -/
theorem C2_cookie_policy_counterexample :
    matches115 "https://example.org/data" = false
    ∧ dispatchHeaders "https://example.org/data" false none defaultHeaders
        "UID=1_A1_0" = some (defaultHeaders ++ [("Cookie", "UID=1_A1_0")])
    ∧ cookieForced "https://example.org/data" false none defaultHeaders = true :=
  ⟨by decide, rfl, rfl⟩

/-- C2 amended: the polarity is the reverse of the claim — when the host IS a
recognized 115 sub-domain, no Cookie header is forced unless the caller
supplied a custom transport; when the host is NOT recognized, the dispatcher
injects the current cookie string unless the caller already set a Cookie
header themselves. -/
theorem C2_cookie_policy_amended :
    ∀ url custom (hs : List (String × String)) cs,
      (matches115 url = true → custom = false →
        dispatchHeaders url custom none defaultHeaders cs = none
        ∧ dispatchHeaders url custom (some hs) defaultHeaders cs =
            some (mergeHeaders defaultHeaders hs))
      ∧ (matches115 url = false ∨ custom = true →
        dispatchHeaders url custom none defaultHeaders cs =
          some (defaultHeaders ++ [("Cookie", cs)])
        ∧ (hasCookieKey hs = false →
            dispatchHeaders url custom (some hs) defaultHeaders cs =
              some (mergeHeaders defaultHeaders hs ++ [("Cookie", cs)]))
        ∧ (hasCookieKey hs = true →
            dispatchHeaders url custom (some hs) defaultHeaders cs =
              some (mergeHeaders defaultHeaders hs))) := by
  intro url custom hs cs
  constructor
  · intro hm hc
    subst hc
    constructor
    · simp [dispatchHeaders, hm]
    · simp [dispatchHeaders, hm]
  · intro h
    have hneed : (if matches115 url then custom else true) = true := by
      rcases h with h | h <;> simp [h]
    refine ⟨?_, ?_, ?_⟩
    · simp [dispatchHeaders, hneed]
    · intro hck
      simp [dispatchHeaders, hneed, hasCookieKey_mergeDefault, hck]
    · intro hck
      simp [dispatchHeaders, hneed, hasCookieKey_mergeDefault, hck]

/-- Witness for C2's amended claim: a 115 host with the default transport gets
no forced header at all; a foreign host does get the cookie injected. -/
theorem C2_cookie_policy_amended_witness :
    (matches115 "https://webapi.115.com/files/index" = true
      ∧ dispatchHeaders "https://webapi.115.com/files/index" false none
          defaultHeaders "UID=7_A1_0" = none)
    ∧ (matches115 "https://example.org/data" = false
      ∧ dispatchHeaders "https://example.org/data" true none defaultHeaders
          "UID=7_A1_0" = some (defaultHeaders ++ [("Cookie", "UID=7_A1_0")])) :=
  ⟨⟨by decide,
    ((C2_cookie_policy_amended "https://webapi.115.com/files/index" false []
      "UID=7_A1_0").1 (by decide) rfl).1⟩,
   ⟨by decide,
    ((C2_cookie_policy_amended "https://example.org/data" true []
      "UID=7_A1_0").2 (Or.inl (by decide))).1⟩⟩

/-- C3: `upload_file_init` with declared filesize at or above 1 MiB and no
`read_range_bytes_or_hash` capability raises `ValueError` before any network
call (empty action trace); below 1 MiB the first action is always the
negotiation call (no precondition failure at entry). -/
theorem C3_upload_init_size_precheck :
    (∀ sha1hex fn (fs : Int) fsha (pid : Int) respond, fs ≥ 1048576 →
      uploadFileInit sha1hex fn fs fsha none pid respond =
        ([], .error (.valueError
          "filesize >= 1 MB, thus need pass the read_range_bytes_or_hash argument")))
    ∧ (∀ sha1hex fn (fs : Int) fsha reader (pid : Int) respond, fs < 1048576 →
      (uploadFileInit sha1hex fn fs fsha reader pid respond).1.head? =
        some (.negotiate fn fs (pyUpper fsha) ("U_1_" ++ toString pid) "" "")) := by
  have h20 : (1 <<< 20 : Int) = 1048576 := by decide
  constructor
  · intro sha1hex fn fs fsha pid respond h
    simp [uploadFileInit, h20, h]
  · intro sha1hex fn fs fsha reader pid respond h
    have hlt : ((1048576 : Int) ≤ fs) = False := by
      simp only [eq_iff_iff, iff_false]
      omega
    rcases reader with _ | rd <;>
      simp only [uploadFileInit, h20, hlt, decide_False, Bool.false_and,
        Option.isNone_none, Option.isNone_some, Bool.and_false, Bool.and_true,
        Bool.false_eq_true, if_false] <;>
      split <;> rfl

/-- Witness for C3: at exactly 1 MiB with no capability the call fails fast; at
one byte less it reaches the negotiation. -/
theorem C3_upload_init_size_precheck_witness :
    ((1048576 : Int) ≥ 1048576
      ∧ uploadFileInit (fun _ => "") "f" 1048576 "abc" none 0
          (fun _ => ⟨2, 0, "", "", "pc"⟩) =
        ([], .error (.valueError
          "filesize >= 1 MB, thus need pass the read_range_bytes_or_hash argument")))
    ∧ ((1048575 : Int) < 1048576
      ∧ (uploadFileInit (fun _ => "") "f" 1048575 "abc" none 0
          (fun _ => ⟨2, 0, "", "", "pc"⟩)).1.head? =
        some (.negotiate "f" 1048575 (pyUpper "abc") ("U_1_" ++ toString (0 : Int)) "" "")) :=
  ⟨⟨by norm_num,
    C3_upload_init_size_precheck.1 (fun _ => "") "f" 1048576 "abc" 0
      (fun _ => ⟨2, 0, "", "", "pc"⟩) (by norm_num)⟩,
   ⟨by norm_num,
    C3_upload_init_size_precheck.2 (fun _ => "") "f" 1048575 "abc" none 0
      (fun _ => ⟨2, 0, "", "", "pc"⟩) (by norm_num)⟩⟩

/-- C4: on a `(7, 701)` negotiation response with a capable source, exactly one
sub-range read is performed on the span named by `sign_check`, the digest (or
the pre-computed digest string) is uppercased as `sign_val`, and the
negotiation is retried exactly once carrying `sign_key` and `sign_val`. -/
theorem C4_upload_second_factor :
    ∀ sha1hex fn (fs : Int) fsha rd (pid : Int) respond k c pc,
      respond 0 = ⟨7, 701, k, c, pc⟩ →
      uploadFileInit sha1hex fn fs fsha (some rd) pid respond =
        ([.negotiate fn fs (pyUpper fsha) ("U_1_" ++ toString pid) "" "",
          .rangeRead c,
          .negotiate fn fs (pyUpper fsha) ("U_1_" ++ toString pid) k
            (match rd c with
             | .digest s => pyUpper s
             | .bytes bs => pyUpper (sha1hex bs))],
         .ok ⟨respond 1, "U_1_" ++ toString pid, fn, fs, pyUpper fsha, pid,
           (respond 1).pickcode⟩) := by
  intro sha1hex fn fs fsha rd pid respond k c pc h
  simp [uploadFileInit, h]

/-- Witness for C4 at a concrete (7, 701) script with a pre-computed digest. -/
theorem C4_upload_second_factor_witness :
    uploadFileInit (fun _ => "aa") "f" 2000000 "abc"
      (some fun _ => .digest "beef") 0 (fun _ => ⟨7, 701, "sk", "0-131071", "pc"⟩) =
      ([.negotiate "f" 2000000 (pyUpper "abc") ("U_1_" ++ toString (0 : Int)) "" "",
        .rangeRead "0-131071",
        .negotiate "f" 2000000 (pyUpper "abc") ("U_1_" ++ toString (0 : Int)) "sk"
          (pyUpper "beef")],
       .ok ⟨⟨7, 701, "sk", "0-131071", "pc"⟩, "U_1_" ++ toString (0 : Int), "f",
         2000000, pyUpper "abc", 0, "pc"⟩) :=
  C4_upload_second_factor (fun _ => "aa") "f" 2000000 "abc"
    (fun _ => .digest "beef") 0 (fun _ => ⟨7, 701, "sk", "0-131071", "pc"⟩)
    "sk" "0-131071" "pc" rfl

end P115

namespace P115

/-- C5: when `start` or a truthy `stop` is negative, `read_bytes` issues
exactly one length probe first, resolves the offsets against the probed length
(in particular `start=-10, stop=None` resolves to the literal range
`"{L-10}-"`), then issues exactly one ranged data request; an empty or
inverted resolved range returns `b""` with no data request. -/
theorem C5_read_bytes_negative_resolution :
    (∀ (L start : Int) (stop : Option Int),
      (start < 0 ∨ (∃ s, stop = some s ∧ s < 0)) →
      (match (getBytesRange start stop L).2 with
       | some r => readBytesModel start stop L = ([.probe, .fetch r], some r)
       | none => readBytesModel start stop L = ([.probe], none)))
    ∧ (∀ L : Int, 10 ≤ L →
      readBytesModel (-10) none L =
        ([.probe, .fetch (toString (L - 10) ++ "-")],
         some (toString (L - 10) ++ "-")))
    ∧ (∀ (L start s : Int), (start < 0 ∨ s < 0) →
      (if start < 0 then max 0 (start + L) else start) ≥
        (if s < 0 then s + L else s) →
      readBytesModel start (some s) L = ([.probe], none)) := by
  refine ⟨?_, ?_, ?_⟩
  · intro L start stop h
    rcases stop with _ | s
    · have hs : start < 0 := by
        rcases h with h | ⟨t, ht, _⟩
        · exact h
        · cases ht
      simp [readBytesModel, getBytesRange, hs]
    · have hneg : start < 0 ∨ s < 0 := by
        rcases h with h | ⟨t, ht, hts⟩
        · exact Or.inl h
        · injection ht with ht
          subst ht
          exact Or.inr hts
      by_cases h1 : start < 0
      · by_cases h2 : s < 0
        · by_cases h3 : start + L < 0 <;>
            simp [readBytesModel, getBytesRange, h1, h2, h3] <;>
            split_ifs <;> simp_all
        · by_cases h3 : start + L < 0 <;>
            simp [readBytesModel, getBytesRange, h1, h2, h3] <;>
            split_ifs <;> simp_all
      · have h2 : s < 0 := by omega
        have h4 : s ≠ 0 := by omega
        simp [readBytesModel, getBytesRange, h1, h2, h4] <;>
          split_ifs <;> simp_all
  · intro L hL
    have h1 : ¬ (-10 + L < 0) := by omega
    have h2 : (-10 : Int) + L = L - 10 := by omega
    have h3 : ¬ (L < 10) := by omega
    simp [readBytesModel, getBytesRange, h1, h2, h3]
  · intro L start s hneg hge
    by_cases h1 : start < 0
    · simp only [h1, if_true] at hge
      by_cases h2 : s < 0 <;> simp only [h2, if_true, if_false] at hge <;>
        by_cases h3 : start + L < 0 <;>
        simp [readBytesModel, getBytesRange, h1, h2, h3] <;>
        split_ifs <;> simp_all <;> omega
    · have h2 : s < 0 := by omega
      have h4 : s ≠ 0 := by omega
      simp only [h1, h2, if_true, if_false] at hge
      simp [readBytesModel, getBytesRange, h1, h2, h4] <;>
        split_ifs <;> simp_all <;> omega

end P115

namespace P115

/-- C6 counterexample: a basic-shape record containing only `cid` and `n`
does not normalize — `normalize_attr` raises `KeyError: pid` (and, with `pid`
added, `KeyError: fl`); a record with only `fid` and `cid` raises
`KeyError: n`.  The claim's minimal records are rejected by the code. -/
theorem C6_normalize_attr_counterexample :
    normalize_attr [("cid", .jstr "1"), ("n", .jstr "x")] false =
      .error (.keyError "pid")
    ∧ normalize_attr [("cid", .jstr "1"), ("pid", .jstr "0"), ("n", .jstr "x")]
        false = .error (.keyError "fl")
    ∧ normalize_attr [("fid", .jstr "2"), ("cid", .jstr "1")] false =
        .error (.keyError "n") :=
  ⟨rfl, rfl, rfl⟩

/-- C6 amended: for a basic-shape record with keys `cid`, `pid`, `n`, `fl` (and
no `fid`), normalization succeeds with `is_dir = True`, `id = int(cid)`,
`parent_id = int(pid)` and `name = n`; for a record with keys `fid`, `cid`,
`n`, `fl`, it succeeds with `is_dir = False`, `id = int(fid)` and
`parent_id = int(cid)`. -/
theorem C6_normalize_attr_amended :
    ∀ (c p nv fl : JsonV) (ci pv : Int),
      pyInt c = .ok ci → pyInt p = .ok pv →
      (exOk? (normalize_attr [("cid", c), ("pid", p), ("n", nv), ("fl", fl)]
          false) = true
        ∧ attrField (normalize_attr [("cid", c), ("pid", p), ("n", nv),
            ("fl", fl)] false) "is_dir" = some (.jbool true)
        ∧ attrField (normalize_attr [("cid", c), ("pid", p), ("n", nv),
            ("fl", fl)] false) "id" = some (.jint ci)
        ∧ attrField (normalize_attr [("cid", c), ("pid", p), ("n", nv),
            ("fl", fl)] false) "parent_id" = some (.jint pv)
        ∧ attrField (normalize_attr [("cid", c), ("pid", p), ("n", nv),
            ("fl", fl)] false) "name" = some nv)
      ∧ (∀ (f : JsonV) (fi : Int), pyInt f = .ok fi →
        exOk? (normalize_attr [("fid", f), ("cid", c), ("n", nv), ("fl", fl)]
            false) = true
        ∧ attrField (normalize_attr [("fid", f), ("cid", c), ("n", nv),
            ("fl", fl)] false) "is_dir" = some (.jbool false)
        ∧ attrField (normalize_attr [("fid", f), ("cid", c), ("n", nv),
            ("fl", fl)] false) "id" = some (.jint fi)
        ∧ attrField (normalize_attr [("fid", f), ("cid", c), ("n", nv),
            ("fl", fl)] false) "parent_id" = some (.jint ci)) := by
  intro c p nv fl ci pv hci hpv
  constructor
  · refine ⟨?_, ?_, ?_, ?_, ?_⟩ <;>
      simp [normalize_attr, getItem, getk, hask, orZero, setTimeKeys, setk,
        flagPairs, copyPairs, exOk?, attrField, hci, hpv, bind, Except.bind,
        pure, Except.pure, show pyInt (.jint 0) = .ok 0 from rfl]
  · intro f fi hf
    refine ⟨?_, ?_, ?_, ?_⟩ <;>
      simp [normalize_attr, getItem, getk, hask, orZero, setTimeKeys, setk,
        flagPairs, copyPairs, exOk?, attrField, hci, hf, bind, Except.bind,
        pure, Except.pure, show pyInt (.jint 0) = .ok 0 from rfl]

end P115

namespace P115

/-- Witness for C5: with probed length 100, `start=-10, stop=None` resolves to
the range `90-`; `start=-5, stop=-10` resolves inverted (95 ≥ 90) and returns
`b""` after the probe alone. -/
theorem C5_read_bytes_negative_resolution_witness :
    ((10 : Int) ≤ 100
      ∧ readBytesModel (-10) none 100 = ([.probe, .fetch "90-"], some "90-"))
    ∧ (((-5 : Int) < 0 ∨ (-10 : Int) < 0)
      ∧ readBytesModel (-5) (some (-10)) 100 = ([.probe], none)) :=
  ⟨⟨by norm_num, C5_read_bytes_negative_resolution.2.1 100 (by norm_num)⟩,
   ⟨Or.inl (by norm_num),
    C5_read_bytes_negative_resolution.2.2 100 (-5) (-10) (Or.inl (by norm_num))
      (by decide)⟩⟩

/-- Witness for C6's amended claim at concrete records. -/
theorem C6_normalize_attr_amended_witness :
    (pyInt (.jstr "123") = .ok 123 ∧ pyInt (.jstr "5") = .ok 5
      ∧ pyInt (.jstr "42") = .ok 42)
    ∧ attrField (normalize_attr [("cid", .jstr "123"), ("pid", .jstr "5"),
        ("n", .jstr "abc"), ("fl", .jarr [])] false) "id" = some (.jint 123)
    ∧ attrField (normalize_attr [("fid", .jstr "42"), ("cid", .jstr "123"),
        ("n", .jstr "abc"), ("fl", .jarr [])] false) "id" = some (.jint 42) :=
  ⟨⟨rfl, rfl, rfl⟩,
   (C6_normalize_attr_amended (.jstr "123") (.jstr "5") (.jstr "abc")
     (.jarr []) 123 5 rfl rfl).1.2.2.1,
   ((C6_normalize_attr_amended (.jstr "123") (.jstr "5") (.jstr "abc")
     (.jarr []) 123 5 rfl rfl).2 (.jstr "42") 42 rfl).2.2.1⟩

theorem qrPollLoop_cont (app : Option String) (pre tail : List (Option Int))
    (h : ∀ s ∈ pre, s = some 0 ∨ s = some 1) :
    qrPollLoop app (pre ++ tail) =
      (pre.map .pollStatus ++ (qrPollLoop app tail).1,
       (qrPollLoop app tail).2) := by
  induction pre with
  | nil => simp
  | cons s rest ih =>
    have hrest : ∀ x ∈ rest, x = some 0 ∨ x = some 1 :=
      fun x hx => h x (by simp [hx])
    rcases h s (by simp) with rfl | rfl <;>
      simp [qrPollLoop, ih hrest]

/-- C7: statuses 0 and 1 keep polling; the first status 2 ends the loop and
only then is the device exchange attempted (bare token without an app); -1,
-2 and any status outside {-2,-1,0,1,2} raise a Login error with no exchange,
-1 and -2 carrying messages distinct from the unknown-status abort. -/
theorem C7_qr_login_terminal_states :
    ∀ (pre : List (Option Int)), (∀ s ∈ pre, s = some 0 ∨ s = some 1) →
    ∀ (rest : List (Option Int)),
      (∀ a, qrPollLoop (some a) (pre ++ some 2 :: rest) =
        (pre.map .pollStatus ++ [.pollStatus (some 2), .scanResult a],
         .exchanged a))
      ∧ (qrPollLoop none (pre ++ some 2 :: rest) =
        (pre.map .pollStatus ++ [.pollStatus (some 2)], .bareToken))
      ∧ (∀ app, qrPollLoop app (pre ++ some (-1) :: rest) =
        (pre.map .pollStatus ++ [.pollStatus (some (-1))],
         .loginError "[status=-1] qrcode: expired"))
      ∧ (∀ app, qrPollLoop app (pre ++ some (-2) :: rest) =
        (pre.map .pollStatus ++ [.pollStatus (some (-2))],
         .loginError "[status=-2] qrcode: canceled"))
      ∧ (∀ app s, s ≠ some 0 → s ≠ some 1 → s ≠ some 2 → s ≠ some (-1) →
          s ≠ some (-2) →
        qrPollLoop app (pre ++ s :: rest) =
          (pre.map .pollStatus ++ [.pollStatus s],
           .loginError "qrcode: aborted"))
      ∧ ("[status=-1] qrcode: expired" ≠ "qrcode: aborted"
         ∧ "[status=-2] qrcode: canceled" ≠ "qrcode: aborted"
         ∧ "[status=-1] qrcode: expired" ≠ "[status=-2] qrcode: canceled") := by
  intro pre hpre rest
  refine ⟨?_, ?_, ?_, ?_, ?_, by decide, by decide, by decide⟩
  · intro a
    rw [qrPollLoop_cont (some a) pre _ hpre]
    simp [qrPollLoop]
  · rw [qrPollLoop_cont none pre _ hpre]
    simp [qrPollLoop]
  · intro app
    rw [qrPollLoop_cont app pre _ hpre]
    simp [qrPollLoop]
  · intro app
    rw [qrPollLoop_cont app pre _ hpre]
    simp [qrPollLoop]
  · intro app s h0 h1 h2 hm1 hm2
    rw [qrPollLoop_cont app pre _ hpre]
    simp [qrPollLoop, h0, h1, h2, hm1, hm2]

/-- Witness for C7: the scripted sequence [0, 1, 2] succeeds after the third
poll and proceeds to device exchange; [0, -1] and a stray status 7 abort with
Login errors and no exchange event. -/
theorem C7_qr_login_terminal_states_witness :
    qrPollLoop (some "web") [some 0, some 1, some 2] =
      ([.pollStatus (some 0), .pollStatus (some 1), .pollStatus (some 2),
        .scanResult "web"], .exchanged "web")
    ∧ qrPollLoop (some "web") [some 0, some (-1)] =
      ([.pollStatus (some 0), .pollStatus (some (-1))],
       .loginError "[status=-1] qrcode: expired")
    ∧ qrPollLoop (some "web") [some 7] =
      ([.pollStatus (some 7)], .loginError "qrcode: aborted") :=
  ⟨(C7_qr_login_terminal_states [some 0, some 1] (by decide) []).1 "web",
   (C7_qr_login_terminal_states [some 0] (by decide) []).2.2.1 "web",
   ((C7_qr_login_terminal_states [] (by decide) []).2.2.2.2.1 "web" (some 7)
     (by decide) (by decide) (by decide) (by decide) (by decide))⟩

end P115

namespace P115

/-- C8: the blocking and non-blocking variants of `hashes` agree for
`stop=None`, but for every non-None `stop` the non-blocking branch raises a
`TypeError` (the missing comma of `client.py:10758` evaluates
`file * digests`) where the blocking branch returns the digests — the claimed
mode equivalence is broken by this code bug, shown concretely at the failing
input `stop=2` over a three-byte content. -/
theorem C8_hashes_dual_mode_bug :
    (∀ (α : Type) (L : Int) (content : List Nat)
        (digests : List (List Nat → α)) (start : Int),
      hashesAsync L content digests start none =
        .ok (hashesSync L content digests start none))
    ∧ (∀ (α : Type) (L : Int) (content : List Nat)
        (digests : List (List Nat → α)) (start s : Int),
      hashesAsync L content digests start (some s) =
        .error (.typeError
          "unsupported operand type(s) for *: HTTPFileReader and tuple"))
    ∧ (hashesSync 3 [10, 20, 30] [fun l => l.sum] 0 (some 2) = (2, [30])
      ∧ hashesAsync 3 [10, 20, 30] [fun l => l.sum] 0 (some 2) =
        .error (.typeError
          "unsupported operand type(s) for *: HTTPFileReader and tuple")) :=
  ⟨fun _ _ _ _ _ => rfl, fun _ _ _ _ _ _ => rfl, by decide, rfl⟩

/-- C9 counterexample: with a non-empty jar, assigning an empty string, a
whitespace-only string, or an empty mapping leaves the jar untouched instead
of clearing it. -/
theorem C9_cookies_setter_counterexample :
    setCookies [⟨"UID", "1_A1_0", ".115.com", "/"⟩] (.pystr "") =
      [⟨"UID", "1_A1_0", ".115.com", "/"⟩]
    ∧ setCookies [⟨"UID", "1_A1_0", ".115.com", "/"⟩] (.pystr "   ") =
      [⟨"UID", "1_A1_0", ".115.com", "/"⟩]
    ∧ setCookies [⟨"UID", "1_A1_0", ".115.com", "/"⟩] (.pymap []) =
      [⟨"UID", "1_A1_0", ".115.com", "/"⟩]
    ∧ [(⟨"UID", "1_A1_0", ".115.com", "/"⟩ : Cky)] ≠ [] :=
  ⟨rfl, rfl, rfl, by decide⟩

/-- C9 amended: only assigning `None` clears the jar; assigning an empty or
whitespace-only string, or an empty mapping, returns early and leaves the jar
unchanged. -/
theorem C9_cookies_setter_amended :
    ∀ jar : List Cky,
      setCookies jar .pynone = []
      ∧ (∀ s : String, s.data.all isPySpace → setCookies jar (.pystr s) = jar)
      ∧ setCookies jar (.pymap []) = jar := by
  intro jar
  refine ⟨rfl, ?_, by simp [setCookies]⟩
  intro s hs
  have h1 : s.data.dropWhile isPySpace = [] := by
    rw [List.dropWhile_eq_nil_iff]
    exact fun x hx => List.all_eq_true.mp hs x hx
  have hmk : String.mk ([] : List Char) = "" := rfl
  simp [setCookies, stripAndRstripSemi, h1, hmk]

/-- Witness for C9's amended claim: a concrete jar survives a whitespace
string and an empty mapping, and is cleared by `None`. -/
theorem C9_cookies_setter_amended_witness :
    setCookies [⟨"CID", "x", ".115.com", "/"⟩] .pynone = []
    ∧ (" \t".data.all isPySpace
      ∧ setCookies [⟨"CID", "x", ".115.com", "/"⟩] (.pystr " \t") =
          [⟨"CID", "x", ".115.com", "/"⟩])
    ∧ setCookies [⟨"CID", "x", ".115.com", "/"⟩] (.pymap []) =
        [⟨"CID", "x", ".115.com", "/"⟩] :=
  ⟨(C9_cookies_setter_amended [⟨"CID", "x", ".115.com", "/"⟩]).1,
   ⟨by decide,
    (C9_cookies_setter_amended [⟨"CID", "x", ".115.com", "/"⟩]).2.1 " \t"
      (by decide)⟩,
   (C9_cookies_setter_amended [⟨"CID", "x", ".115.com", "/"⟩]).2.2⟩

theorem pySplitChar_ne_nil (sep : Char) (l : List Char) :
    pySplitChar sep l ≠ [] := by
  cases l with
  | nil => simp [pySplitChar]
  | cons c rest =>
    simp only [pySplitChar]
    cases h : pySplitChar sep rest with
    | nil => simp
    | cons g gs => by_cases hc : c = sep <;> simp [hc]

theorem pySplitChar_no_sep (sep : Char) (l : List Char) (h : sep ∉ l) :
    pySplitChar sep l = [l] := by
  induction l with
  | nil => rfl
  | cons c rest ih =>
    have hc : ¬ (c = sep) := fun hh => h (hh ▸ List.mem_cons_self c rest)
    have hrest : sep ∉ rest := fun hh => h (List.mem_cons_of_mem c hh)
    simp [pySplitChar, ih hrest, hc]

theorem pySplitChar_split (sep : Char) (l1 l2 : List Char) (h : sep ∉ l1) :
    pySplitChar sep (l1 ++ sep :: l2) = l1 :: pySplitChar sep l2 := by
  induction l1 with
  | nil =>
    cases h2 : pySplitChar sep l2 with
    | nil => exact absurd h2 (pySplitChar_ne_nil sep l2)
    | cons g gs => simp [pySplitChar, h2]
  | cons c rest ih =>
    have hc : ¬ (c = sep) := fun hh => h (hh ▸ List.mem_cons_self c rest)
    have hrest : sep ∉ rest := fun hh => h (List.mem_cons_of_mem c hh)
    show pySplitChar sep (c :: (rest ++ sep :: l2)) = _
    simp only [pySplitChar]
    rw [ih hrest]
    simp [hc]

/-- C10: with no `UID` cookie the identity accessors degrade to 0 and `None`;
with a `UID` cookie of shape `{digits}_{ssoent}_{rest}`, `user_id` is the
integer before the first underscore and `login_ssoent` the segment between
the first and second underscores. -/
theorem C10_identity_accessors :
    (∀ jar, cookiesGet jar "UID" = none →
      user_id jar = .ok 0 ∧ login_ssoent jar = .ok none)
    ∧ (∀ jar uid (d e r : List Char) (n : Int),
      cookiesGet jar "UID" = some uid →
      uid.data = d ++ '_' :: (e ++ '_' :: r) →
      '_' ∉ d → '_' ∉ e →
      pyInt (.jstr (String.mk d)) = .ok n →
      user_id jar = .ok n ∧ login_ssoent jar = .ok (some (String.mk e))) := by
  constructor
  · intro jar h
    constructor <;> simp [user_id, login_ssoent, h]
  · intro jar uid d e r n hget hdata hd he hint
    have hne : uid ≠ "" := by
      intro hh
      subst hh
      simp at hdata
    have hsplit : pySplitChar '_' uid.data = d :: e :: pySplitChar '_' r := by
      rw [hdata, pySplitChar_split _ _ _ hd, pySplitChar_split _ _ _ he]
    constructor
    · simp [user_id, hget, hne, hsplit, hint]
    · simp [login_ssoent, hget, hne, hsplit]

/-- Witness for C10 at an empty jar and at `UID = 123_A1_99`. -/
theorem C10_identity_accessors_witness :
    (cookiesGet [] "UID" = none ∧ user_id [] = .ok 0)
    ∧ (cookiesGet [⟨"UID", "123_A1_99", ".115.com", "/"⟩] "UID" =
        some "123_A1_99"
      ∧ user_id [⟨"UID", "123_A1_99", ".115.com", "/"⟩] = .ok 123
      ∧ login_ssoent [⟨"UID", "123_A1_99", ".115.com", "/"⟩] =
          .ok (some "A1")) :=
  ⟨⟨rfl, (C10_identity_accessors.1 [] rfl).1⟩,
   ⟨rfl,
    (C10_identity_accessors.2 [⟨"UID", "123_A1_99", ".115.com", "/"⟩]
      "123_A1_99" "123".data "A1".data "99".data 123 rfl rfl (by decide)
      (by decide) rfl).1,
    (C10_identity_accessors.2 [⟨"UID", "123_A1_99", ".115.com", "/"⟩]
      "123_A1_99" "123".data "A1".data "99".data 123 rfl rfl (by decide)
      (by decide) rfl).2⟩⟩

end P115
